import Mathlib

/-!
# Verification of the wingstop-inventory-app security layer

Shallow embedding of the security and access-control core of the
`wingstop-inventory-app` backend (FastAPI/Python), together with proofs of
the specification claims about it.

Embedded source files:
* `app/core/security.py` — `AuthenticationManager` (JWT issue/verify,
  password hashing wrappers), `SecurityMiddleware`, `validate_password_strength`.
* `app/core/dependencies.py` — `get_current_user`.
* `app/core/rbac.py` — permission catalog, role tables, RBAC checks and guards.
* `app/core/middleware.py` — `RateLimitMiddleware`.
* `app/api/auth.py` — the `/auth/register` handler.
* `app/core/security_utils.py` is absent from the source tree (only its test
  suite is present); the pieces of it that claims depend on are modelled from
  the specification and marked as such in their doc comments.

Python `dict`s keep unique keys in insertion order; they are embedded as
association lists with an update operation that replaces in place.
Machine clock readings (`time.time()`, `datetime.utcnow()`) are passed in
explicitly as rational/integer timestamps.
-/

/-- Lookup in an association list with string keys (Python `d[k]` / `d.get(k)`). -/
def alistGet {α : Type} : List (String × α) → String → Option α
  | [], _ => none
  | (k', v) :: rest, k => if k' = k then some v else alistGet rest k

/-- Update of an association list with string keys (Python `d[k] = v`):
replaces the value in place when the key is present, appends otherwise. -/
def alistSet {α : Type} : List (String × α) → String → α → List (String × α)
  | [], k, v => [(k, v)]
  | (k', v') :: rest, k, v =>
      if k' = k then (k, v) :: rest else (k', v') :: alistSet rest k v

theorem alistGet_alistSet_self {α : Type} (l : List (String × α)) (k : String) (v : α) :
    alistGet (alistSet l k v) k = some v := by
  induction l with
  | nil => simp [alistGet, alistSet]
  | cons hd tl ih =>
      obtain ⟨k', v'⟩ := hd
      by_cases h : k' = k <;> simp [alistGet, alistSet, h, ih]

theorem alistGet_alistSet_ne {α : Type} (l : List (String × α)) (k k' : String) (v : α)
    (h : k' ≠ k) : alistGet (alistSet l k v) k' = alistGet l k' := by
  induction l with
  | nil => simp [alistGet, alistSet, Ne.symm h]
  | cons hd tl ih =>
      obtain ⟨k₀, v₀⟩ := hd
      by_cases h₀ : k₀ = k
      · subst h₀
        simp [alistGet, alistSet, Ne.symm h]
      · simp only [alistSet, if_neg h₀]
        by_cases h₁ : k₀ = k' <;> simp [alistGet, h₁, ih]

/-- A JWT claim value: the payloads built by this app hold strings
(`sub`, `username`, `type`), integers (`exp`, `role_id`) and Python `None`
(`role_id` of a user with no role). -/
inductive ClaimVal
  | str (s : String)
  | num (n : Int)
  | null
deriving DecidableEq, Repr

/-- A JWT payload: a Python dict of claims. -/
abbrev Claims := List (String × ClaimVal)

/-- `payload[k]` as an optional lookup. -/
def getClaim (c : Claims) (k : String) : Option ClaimVal := alistGet c k

/-- `payload.update({k: v})` for a single key. -/
def setClaim (c : Claims) (k : String) (v : ClaimVal) : Claims := alistSet c k v

/-- A compact signed token as produced by `jwt.encode`.  The HMAC signature is
modelled symbolically: the signature is valid for exactly the key and payload
it was produced over. -/
structure Jwt where
  alg : String
  payload : Claims
  mac : String × Claims
deriving DecidableEq

/-- `jwt.encode(payload, secret, algorithm=alg)`. -/
def jwtEncode (secret alg : String) (payload : Claims) : Jwt :=
  { alg := alg, payload := payload, mac := (secret, payload) }

/-- The PyJWT error taxonomy relevant to `verify_token`. -/
inductive JwtError
  | expiredSignature
  | invalidToken
deriving DecidableEq, Repr

/-- `jwt.decode(token, secret, algorithms=algs)` at clock reading `now`:
pinned algorithm and signature are checked first, then the `exp` claim
(an expired token raises `ExpiredSignatureError`; a non-numeric `exp` is a
decode error). -/
def jwtDecode (secret : String) (algs : List String) (tok : Jwt) (now : Int) :
    Except JwtError Claims :=
  if tok.alg ∈ algs ∧ tok.mac = (secret, tok.payload) then
    match getClaim tok.payload "exp" with
    | some (ClaimVal.num e) =>
        if e ≤ now then Except.error JwtError.expiredSignature
        else Except.ok tok.payload
    | some _ => Except.error JwtError.invalidToken
    | none => Except.ok tok.payload
  else Except.error JwtError.invalidToken

/-- An HTTP error response (`HTTPException(status_code, detail)`). -/
structure HttpError where
  status : Nat
  detail : String
deriving DecidableEq, Repr

/-- `AuthenticationManager.create_access_token(data, expires_delta)`:
copies `data`, stamps `exp = now + expires_delta` (defaulting to the
configured access-token lifetime in minutes) and `type = "access"`, and signs
with the shared secret.  `expires_delta` and the clock are in seconds. -/
def create_access_token (secret alg : String) (data : Claims)
    (expires_delta : Option Int) (now : Int) (defaultMinutes : Int) : Jwt :=
  let expire : Int :=
    match expires_delta with
    | some d => now + d
    | none => now + defaultMinutes * 60
  jwtEncode secret alg (setClaim (setClaim data "exp" (ClaimVal.num expire)) "type" (ClaimVal.str "access"))

/-- `AuthenticationManager.create_refresh_token(data)`: stamps
`exp = now + REFRESH_TOKEN_EXPIRE_DAYS` and `type = "refresh"`. -/
def create_refresh_token (secret alg : String) (data : Claims)
    (now : Int) (refreshDays : Int) : Jwt :=
  jwtEncode secret alg
    (setClaim (setClaim data "exp" (ClaimVal.num (now + refreshDays * 86400))) "type" (ClaimVal.str "refresh"))

/-- `AuthenticationManager.verify_token(token)`: decodes with the manager's
secret and pinned algorithm; `ExpiredSignatureError` becomes
401 "Token has expired", any other decode failure becomes 401 "Invalid token". -/
def verify_token (secret alg : String) (tok : Jwt) (now : Int) :
    Except HttpError Claims :=
  match jwtDecode secret [alg] tok now with
  | Except.ok payload => Except.ok payload
  | Except.error JwtError.expiredSignature => Except.error ⟨401, "Token has expired"⟩
  | Except.error JwtError.invalidToken => Except.error ⟨401, "Invalid token"⟩

theorem getClaim_setClaim_self (c : Claims) (k : String) (v : ClaimVal) :
    getClaim (setClaim c k v) k = some v := alistGet_alistSet_self c k v

theorem getClaim_setClaim_ne (c : Claims) (k k' : String) (v : ClaimVal) (h : k' ≠ k) :
    getClaim (setClaim c k v) k' = getClaim c k' := alistGet_alistSet_ne c k k' v h

/-- The payload stamped into an access token: the caller's claims with
`exp` and `type` updated in place. -/
def accessPayload (data : Claims) (expire : Int) : Claims :=
  setClaim (setClaim data "exp" (ClaimVal.num expire)) "type" (ClaimVal.str "access")

theorem verify_create_access_before (secret alg : String) (data : Claims)
    (d now t dm : Int) (h : t < now + d) :
    verify_token secret alg (create_access_token secret alg data (some d) now dm) t
      = Except.ok (accessPayload data (now + d)) := by
  have hexp : getClaim (accessPayload data (now + d)) "exp" = some (ClaimVal.num (now + d)) := by
    unfold accessPayload
    rw [getClaim_setClaim_ne _ _ _ _ (by decide), getClaim_setClaim_self]
  unfold verify_token jwtDecode create_access_token jwtEncode
  simp only [accessPayload] at hexp ⊢
  rw [hexp]
  simp [not_le.mpr h]

theorem verify_create_access_after (secret alg : String) (data : Claims)
    (d now t dm : Int) (h : now + d ≤ t) :
    verify_token secret alg (create_access_token secret alg data (some d) now dm) t
      = Except.error ⟨401, "Token has expired"⟩ := by
  have hexp : getClaim (accessPayload data (now + d)) "exp" = some (ClaimVal.num (now + d)) := by
    unfold accessPayload
    rw [getClaim_setClaim_ne _ _ _ _ (by decide), getClaim_setClaim_self]
  unfold verify_token jwtDecode create_access_token jwtEncode
  simp only [accessPayload] at hexp ⊢
  rw [hexp]
  simp [h]

/-- C2. For every claims map and positive ttl (seconds), verifying
`create_access_token(claims, ttl)` before the ttl has elapsed succeeds and
returns the original claims extended with `type = "access"` and the stamped
`exp = now + ttl`; verifying after the ttl has elapsed fails with the
401 "Token has expired" error. -/
theorem access_token_roundtrip (secret alg : String) (data : Claims)
    (ttl now t dm : Int) (httl : 0 < ttl) :
    (t < now + ttl →
      verify_token secret alg (create_access_token secret alg data (some ttl) now dm) t
          = Except.ok (accessPayload data (now + ttl))
        ∧ getClaim (accessPayload data (now + ttl)) "type" = some (ClaimVal.str "access")
        ∧ getClaim (accessPayload data (now + ttl)) "exp" = some (ClaimVal.num (now + ttl))
        ∧ ∀ k, k ≠ "type" → k ≠ "exp" →
            getClaim (accessPayload data (now + ttl)) k = getClaim data k)
    ∧ (now + ttl < t →
      verify_token secret alg (create_access_token secret alg data (some ttl) now dm) t
          = Except.error ⟨401, "Token has expired"⟩) := by
  constructor
  · intro hbefore
    refine ⟨verify_create_access_before secret alg data ttl now t dm hbefore, ?_, ?_, ?_⟩
    · exact getClaim_setClaim_self _ _ _
    · unfold accessPayload
      rw [getClaim_setClaim_ne _ _ _ _ (by decide), getClaim_setClaim_self]
    · intro k hk1 hk2
      unfold accessPayload
      rw [getClaim_setClaim_ne _ _ _ _ hk1, getClaim_setClaim_ne _ _ _ _ hk2]
  · intro hafter
    exact verify_create_access_after secret alg data ttl now t dm (le_of_lt hafter)

/-- Witness for C2 at a concrete token: secret `"s"`, claims `{sub: "1"}`,
ttl 60 s issued at time 0, verified at t = 30 (valid) and t = 100 (expired). -/
theorem access_token_roundtrip_witness :
    verify_token "s" "HS256" (create_access_token "s" "HS256" [("sub", ClaimVal.str "1")] (some 60) 0 30) 30
        = Except.ok [("sub", ClaimVal.str "1"), ("exp", ClaimVal.num 60), ("type", ClaimVal.str "access")]
    ∧ verify_token "s" "HS256" (create_access_token "s" "HS256" [("sub", ClaimVal.str "1")] (some 60) 0 30) 100
        = Except.error ⟨401, "Token has expired"⟩ := by
  have h := access_token_roundtrip "s" "HS256" [("sub", ClaimVal.str "1")] 60 0 30 30 (by decide)
  have h2 := access_token_roundtrip "s" "HS256" [("sub", ClaimVal.str "1")] 60 0 100 30 (by decide)
  refine ⟨?_, h2.2 (by decide)⟩
  have := (h.1 (by decide)).1
  rw [this]
  rfl

/-- A row of the `user` table (`app/models/user.py`), restricted to the fields
the security layer reads. -/
structure UserRec where
  id : Int
  username : String
  email : String
  hashed_password : String
  is_active : Bool
  role_id : Option Int
deriving DecidableEq, Repr

/-- A row of the `role` table (`app/models/role.py`), restricted to the fields
the security layer reads. -/
structure RoleRec where
  id : Int
  name : String
deriving DecidableEq, Repr

/-- Python `int(s)` on a string: an optional sign followed by digits
(whitespace-trimmed input is not needed by this layer); anything else raises
`ValueError`, modelled as `none`. -/
def parsePyIntDigits : List Char → Option Int
  | [] => none
  | cs =>
      if cs.all (fun c => c.isDigit) then
        some (Int.ofNat (cs.foldl (fun acc c => acc * 10 + (c.toNat - 48)) 0))
      else none

/-- Python `int(x)` applied to a claim value: integers pass through, numeric
strings are parsed, anything else raises `ValueError` (`none`). -/
def claimToInt : ClaimVal → Option Int
  | ClaimVal.num n => some n
  | ClaimVal.str s =>
      match s.toList with
      | '-' :: rest => (parsePyIntDigits rest).map (fun n => -n)
      | cs => parsePyIntDigits cs
  | ClaimVal.null => none

/-- `get_current_user` (`app/core/dependencies.py`): verifies the bearer token,
reads the `sub` claim, converts it to an integer user id (any
`HTTPException`/`ValueError` raised so far is replaced by 401 "Invalid token"),
then resolves the user against the store; a missing user yields
401 "User not found" and an inactive one 401 "User is inactive".
The store `userById` models `session.get(User, user_id)`. -/
def get_current_user (secret alg : String) (tok : Jwt) (now : Int)
    (userById : Int → Option UserRec) : Except HttpError UserRec :=
  match
    (match verify_token secret alg tok now with
     | Except.error _ => Except.error ⟨401, "Invalid token"⟩
     | Except.ok payload =>
        match getClaim payload "sub" with
        | none => Except.error ⟨401, "Invalid token"⟩
        | some v =>
            match claimToInt v with
            | none => Except.error ⟨401, "Invalid token"⟩
            | some uid => Except.ok uid) with
  | Except.error e => Except.error e
  | Except.ok uid =>
      match userById uid with
      | none => Except.error ⟨401, "User not found"⟩
      | some user =>
          if user.is_active then Except.ok user
          else Except.error ⟨401, "User is inactive"⟩

/-- The user record the C1 counter-scenario is run against. -/
def aliceUser : UserRec :=
  { id := 1, username := "alice", email := "alice@example.com",
    hashed_password := "h", is_active := true, role_id := none }

/-- The refresh token issued for `aliceUser` at time 0 with the default
7-day refresh lifetime, exactly as `/auth/login` builds it. -/
def aliceRefreshToken : Jwt :=
  create_refresh_token "test-secret" "HS256"
    [("sub", ClaimVal.str "1"), ("username", ClaimVal.str "alice")] 0 7

/-- C1 (failing input). The claim says a token whose claims carry
`type = "refresh"` is always rejected with a 401 by `get_current_user`.  The
code never inspects the `type` claim: presenting the unexpired refresh token
for the active user `alice` at time 10 succeeds and returns the user instead
of a 401 authentication error. -/
theorem refresh_token_accepted_by_get_current_user :
    getClaim aliceRefreshToken.payload "type" = some (ClaimVal.str "refresh")
    ∧ get_current_user "test-secret" "HS256" aliceRefreshToken 10
        (fun uid => if uid = 1 then some aliceUser else none) = Except.ok aliceUser := by
  constructor
  · rfl
  · rfl

/-- `RolePermissions.PERMISSIONS` (`app/core/rbac.py`): the keys of the full
permission catalog, in the order of the source dict. -/
def PERMISSIONS : List String :=
  [ "users:read", "users:create", "users:update", "users:delete",
    "inventory:read", "inventory:create", "inventory:update", "inventory:delete", "inventory:export",
    "counts:read", "counts:create", "counts:update", "counts:delete", "counts:approve",
    "reports:read", "reports:create", "reports:export",
    "system:admin", "system:config",
    "locations:read", "locations:create", "locations:update", "locations:delete",
    "roles:read", "roles:create", "roles:update", "roles:delete" ]

/-- `ROLE_PERMISSIONS["admin"]["permissions"] = list(PERMISSIONS.keys())`. -/
def adminPermList : List String := PERMISSIONS

/-- `ROLE_PERMISSIONS["manager"]["permissions"]`. -/
def managerPermList : List String :=
  [ "users:read",
    "inventory:read", "inventory:create", "inventory:update", "inventory:export",
    "counts:read", "counts:create", "counts:update", "counts:approve",
    "reports:read", "reports:create", "reports:export",
    "locations:read",
    "roles:read" ]

/-- `ROLE_PERMISSIONS["clerk"]["permissions"]`. -/
def clerkPermList : List String :=
  [ "inventory:read",
    "counts:read", "counts:create", "counts:update",
    "reports:read" ]

/-- `ROLE_PERMISSIONS["viewer"]["permissions"]`. -/
def viewerPermList : List String :=
  [ "inventory:read",
    "counts:read",
    "reports:read" ]

/-- The `ROLE_PERMISSIONS` dict, as the permission list each role name maps to. -/
def rolePermissionsMap : String → Option (List String)
  | "admin" => some adminPermList
  | "manager" => some managerPermList
  | "clerk" => some clerkPermList
  | "viewer" => some viewerPermList
  | _ => none

/-- `RolePermissions.get_permissions_for_role(role_name)`: the role's
permission list as a set; the empty set for an unknown role name. -/
def get_permissions_for_role (role_name : String) : Finset String :=
  match rolePermissionsMap role_name with
  | none => ∅
  | some perms => perms.toFinset

/-- `RolePermissions.get_all_permissions()`: the full catalog as a set. -/
def get_all_permissions : Finset String := PERMISSIONS.toFinset

/-- `RBACMiddleware.has_permission`. -/
def has_permission (user_permissions : Finset String) (required_permission : String) : Bool :=
  required_permission ∈ user_permissions

/-- `RBACMiddleware.has_any_permission`: `any(perm in user_permissions for perm in required)`. -/
def has_any_permission (user_permissions : Finset String) (required : List String) : Bool :=
  required.any (fun p => p ∈ user_permissions)

/-- `RBACMiddleware.has_all_permissions`: `all(perm in user_permissions for perm in required)`. -/
def has_all_permissions (user_permissions : Finset String) (required : List String) : Bool :=
  required.all (fun p => p ∈ user_permissions)

/-- `RBACMiddleware.get_user_permissions(user, session)`: empty set when the
user's `role_id` is falsy (`None` — or `0`, since the source guard is
`if not user.role_id`), empty set when the role id does not resolve in the
role store, otherwise the static permission set of the resolved role's name.
`roleById` models `session.get(Role, role_id)`. -/
def get_user_permissions (user : UserRec) (roleById : Int → Option RoleRec) : Finset String :=
  match user.role_id with
  | none => ∅
  | some rid =>
      if rid = 0 then ∅
      else
        match roleById rid with
        | none => ∅
        | some role => get_permissions_for_role role.name

/-- `RBACDependencies.require_any_permission(permissions)` applied to a
resolved current user: 403 naming the permissions when the user's permission
set contains none of them. -/
def require_any_permission (permissions : List String) (current_user : UserRec)
    (roleById : Int → Option RoleRec) : Except HttpError UserRec :=
  let user_permissions := get_user_permissions current_user roleById
  if has_any_permission user_permissions permissions then Except.ok current_user
  else Except.error ⟨403, "Access denied. Required one of permissions: " ++ String.intercalate ", " permissions⟩

/-- `RBACDependencies.require_all_permissions(permissions)` applied to a
resolved current user: 403 naming the permissions when some required
permission is missing. -/
def require_all_permissions (permissions : List String) (current_user : UserRec)
    (roleById : Int → Option RoleRec) : Except HttpError UserRec :=
  let user_permissions := get_user_permissions current_user roleById
  if has_all_permissions user_permissions permissions then Except.ok current_user
  else Except.error ⟨403, "Access denied. Required all permissions: " ++ String.intercalate ", " permissions⟩

/-- The clerk permission set named by the specification. -/
def clerkExpectedSet : Finset String :=
  (["inventory:read", "counts:read", "counts:create", "counts:update", "reports:read"] : List String).toFinset

/-- C3. Resolving a user's permissions returns the full catalog when the role
resolves to `admin`, exactly `{inventory:read, counts:read, counts:create,
counts:update, reports:read}` when it resolves to `clerk`, and the empty set
when the user has no `role_id` or the id does not resolve — all without
throwing (the embedding is a total function).  The hypothesis records that
the role store never holds a role under id 0 (database ids are positive),
which the source's `if not user.role_id` guard would otherwise shadow. -/
theorem get_user_permissions_cases (user : UserRec) (roleById : Int → Option RoleRec)
    (h0 : roleById 0 = none) :
    (user.role_id = none → get_user_permissions user roleById = ∅)
    ∧ (∀ rid, user.role_id = some rid → roleById rid = none →
        get_user_permissions user roleById = ∅)
    ∧ (∀ rid r, user.role_id = some rid → roleById rid = some r → r.name = "admin" →
        get_user_permissions user roleById = get_all_permissions)
    ∧ (∀ rid r, user.role_id = some rid → roleById rid = some r → r.name = "clerk" →
        get_user_permissions user roleById = clerkExpectedSet) := by
  refine ⟨?_, ?_, ?_, ?_⟩
  · intro h
    simp [get_user_permissions, h]
  · intro rid hrid hnone
    by_cases hz : rid = 0 <;> simp [get_user_permissions, hrid, hz, hnone]
  · intro rid r hrid hsome hname
    have hz : rid ≠ 0 := by
      intro hz
      rw [hz, h0] at hsome
      exact Option.noConfusion hsome
    simp only [get_user_permissions, hrid, if_neg hz, hsome, hname]
    rfl
  · intro rid r hrid hsome hname
    have hz : rid ≠ 0 := by
      intro hz
      rw [hz, h0] at hsome
      exact Option.noConfusion hsome
    simp only [get_user_permissions, hrid, if_neg hz, hsome, hname]
    decide

/-- Witness for C3: a user whose role id 1 resolves to the `clerk` role gets
exactly the specified clerk set. -/
theorem get_user_permissions_cases_witness :
    get_user_permissions
      { id := 2, username := "bob", email := "bob@example.com",
        hashed_password := "h", is_active := true, role_id := some 1 }
      (fun rid => if rid = 1 then some { id := 1, name := "clerk" } else none)
      = clerkExpectedSet := by
  have h := get_user_permissions_cases
    { id := 2, username := "bob", email := "bob@example.com",
      hashed_password := "h", is_active := true, role_id := some 1 }
    (fun rid => if rid = 1 then some { id := 1, name := "clerk" } else none)
    (by simp)
  exact h.2.2.2 1 { id := 1, name := "clerk" } rfl (by simp) rfl

/-- C9. In the static role tables the four built-in roles' permission sets
form a chain under inclusion — viewer ⊆ clerk ⊆ manager ⊆ admin — the admin
set equals the full permission catalog, and consequently every permission any
role grants (under `get_permissions_for_role`, for any role name) is a member
of the catalog. -/
theorem role_permission_chain :
    get_permissions_for_role "viewer" ⊆ get_permissions_for_role "clerk"
    ∧ get_permissions_for_role "clerk" ⊆ get_permissions_for_role "manager"
    ∧ get_permissions_for_role "manager" ⊆ get_permissions_for_role "admin"
    ∧ get_permissions_for_role "admin" = get_all_permissions
    ∧ ∀ role_name : String, get_permissions_for_role role_name ⊆ get_all_permissions := by
  refine ⟨by decide, by decide, by decide, by decide, ?_⟩
  intro role_name
  unfold get_permissions_for_role
  rcases hm : rolePermissionsMap role_name with _ | perms
  · simp
  · have hperms : perms = adminPermList ∨ perms = managerPermList
        ∨ perms = clerkPermList ∨ perms = viewerPermList := by
      unfold rolePermissionsMap at hm
      split at hm <;> simp_all
    rcases hperms with h | h | h | h <;> subst h <;> decide

/-- C10. For every resolved current user and every role store (hence every
permission set), the guard built by `require_all_permissions` with an empty
required list passes the user through — `has_all_permissions` over an empty
list is vacuously true — while the guard built by `require_any_permission`
with an empty list fails with a 403 authorization error, because
`has_any_permission` over an empty list is false. -/
theorem empty_required_permission_guards (current_user : UserRec)
    (roleById : Int → Option RoleRec) :
    require_all_permissions [] current_user roleById = Except.ok current_user
    ∧ require_any_permission [] current_user roleById
        = Except.error ⟨403, "Access denied. Required one of permissions: "⟩
    ∧ ∀ user_permissions : Finset String,
        has_all_permissions user_permissions [] = true
        ∧ has_any_permission user_permissions [] = false := by
  refine ⟨?_, ?_, ?_⟩
  · simp [require_all_permissions, has_all_permissions]
  · simp [require_any_permission, has_any_permission]
    rfl
  · intro user_permissions
    exact ⟨rfl, rfl⟩

/-- A per-key entry of `RateLimitMiddleware.request_counts`:
`{"count": ..., "timestamp": ...}`. -/
structure CountInfo where
  count : Nat
  timestamp : ℚ
deriving DecidableEq, Repr

/-- Outcome of one pass through `RateLimitMiddleware.dispatch`: the request is
forwarded downstream, or short-circuited with the 429 rate-limit JSON envelope
carrying `details.retry_after`. -/
inductive RLOutcome
  | allowed
  | limited (status : Nat) (retry_after : Nat)
deriving DecidableEq, Repr

/-- One pass of `RateLimitMiddleware.dispatch` (`app/core/middleware.py`) for
client ip `ip` at clock `now` over state `st`: entries whose timestamp is not
newer than `now - 60` are purged; a tracked ip inside its window is denied
once its count has reached the limit and incremented otherwise (the stored
timestamp is kept); an untracked ip is recorded as `(1, now)` and allowed. -/
def rateLimitDispatch (limit : Nat) (ip : String) (now : ℚ)
    (st : List (String × CountInfo)) : RLOutcome × List (String × CountInfo) :=
  let window_start := now - 60
  let cleaned := st.filter (fun p => decide (window_start < p.2.timestamp))
  match alistGet cleaned ip with
  | some info =>
      if window_start < info.timestamp then
        if limit ≤ info.count then (RLOutcome.limited 429 60, cleaned)
        else (RLOutcome.allowed, alistSet cleaned ip ⟨info.count + 1, info.timestamp⟩)
      else (RLOutcome.allowed, alistSet cleaned ip ⟨1, now⟩)
  | none => (RLOutcome.allowed, alistSet cleaned ip ⟨1, now⟩)

/-- A sequence of requests from one client ip through the rate-limit
middleware, returning the outcomes and the final counter state. -/
def processRequests (limit : Nat) (ip : String) :
    List ℚ → List (String × CountInfo) → List RLOutcome × List (String × CountInfo)
  | [], st => ([], st)
  | t :: ts, st =>
      let res := rateLimitDispatch limit ip t st
      let rest := processRequests limit ip ts res.2
      (res.1 :: rest.1, rest.2)

theorem rateLimitDispatch_hit (ip : String) (c : Nat) (t0 t : ℚ) (h : t < t0 + 60) :
    rateLimitDispatch 10 ip t [(ip, ⟨c, t0⟩)]
      = if 10 ≤ c then (RLOutcome.limited 429 60, [(ip, ⟨c, t0⟩)])
        else (RLOutcome.allowed, [(ip, ⟨c + 1, t0⟩)]) := by
  have hw : t - 60 < t0 := by linarith
  simp [rateLimitDispatch, alistGet, alistSet, hw]

theorem processRequests_single (ip : String) (t0 : ℚ) (ts : List ℚ) :
    ∀ c : Nat, c ≤ 10 → (∀ t ∈ ts, t < t0 + 60) →
    processRequests 10 ip ts [(ip, ⟨c, t0⟩)]
      = ((List.range ts.length).map
            (fun i => if c + i < 10 then RLOutcome.allowed else RLOutcome.limited 429 60),
         [(ip, ⟨min (c + ts.length) 10, t0⟩)]) := by
  induction ts with
  | nil =>
      intro c hc _
      simp [processRequests, Nat.min_eq_left hc]
  | cons t rest ih =>
      intro c hc h
      have ht : t < t0 + 60 := h t (List.mem_cons_self t rest)
      have hrest : ∀ x ∈ rest, x < t0 + 60 := fun x hx => h x (List.mem_cons_of_mem t hx)
      by_cases hlim : 10 ≤ c
      · have hc10 : c = 10 := le_antisymm hc hlim
        subst hc10
        simp only [processRequests, rateLimitDispatch_hit ip 10 t0 t ht, if_pos (le_refl 10),
          ih 10 (le_refl 10) hrest]
        rw [Prod.mk.injEq]
        constructor
        · rw [List.length_cons, List.range_succ_eq_map, List.map_cons, List.map_map]
          simp only [List.cons.injEq]
          refine ⟨by simp, ?_⟩
          apply List.map_congr_left
          intro i _
          simp
        · simp
      · have hlt : c < 10 := lt_of_not_ge hlim
        simp only [processRequests, rateLimitDispatch_hit ip c t0 t ht, if_neg hlim,
          ih (c + 1) hlt hrest]
        rw [Prod.mk.injEq]
        constructor
        · rw [List.length_cons, List.range_succ_eq_map, List.map_cons, List.map_map]
          simp only [List.cons.injEq]
          refine ⟨by simp [hlt], ?_⟩
          apply List.map_congr_left
          intro i _
          have harith : c + 1 + i = c + (i + 1) := by omega
          simp [Function.comp, harith]
        · have harith : c + 1 + rest.length = c + (rest.length + 1) := by omega
          simp [harith]

theorem rateLimitDispatch_after_window (limit : Nat) (ip : String) (t' : ℚ)
    (st : List (String × CountInfo)) (h : ∀ p ∈ st, p.2.timestamp ≤ t' - 60) :
    (rateLimitDispatch limit ip t' st).1 = RLOutcome.allowed := by
  have hclean : st.filter (fun p => decide (t' - 60 < p.2.timestamp)) = [] := by
    apply List.filter_eq_nil.mpr
    intro p hp
    simp [not_lt.mpr (h p hp)]
  simp [rateLimitDispatch, hclean, alistGet]

/-- Modelled from the spec: `app/core/security_utils.py` is absent from the
source tree (only `tests/test_security_utils.py` imports it), so its
`RateLimiter` — fixed 60-second window, per-key `(count, window_start)`,
default limit 10 — is modelled from §4.5 of the specification:
`isAllowed(key)`: if no entry or the entry's window has elapsed, reset to
`(1, now)` and allow; else if `count < limit`, increment and allow; else deny. -/
structure SULimiter where
  requests : List (String × CountInfo)
  limit : Nat
  window : ℚ
deriving DecidableEq

/-- Modelled from the spec: `RateLimiter.is_allowed(key)` of the missing
`app/core/security_utils.py`, per §4.5. -/
def SULimiter.is_allowed (rl : SULimiter) (key : String) (now : ℚ) : Bool × SULimiter :=
  match alistGet rl.requests key with
  | none => (true, { rl with requests := alistSet rl.requests key ⟨1, now⟩ })
  | some info =>
      if info.timestamp + rl.window ≤ now then
        (true, { rl with requests := alistSet rl.requests key ⟨1, now⟩ })
      else if info.count < rl.limit then
        (true, { rl with requests := alistSet rl.requests key ⟨info.count + 1, info.timestamp⟩ })
      else (false, rl)

/-- Modelled from the spec: `RateLimiter.get_remaining_requests(key)` of the
missing `app/core/security_utils.py`, per §4.5:
`max(0, limit - count)` within the current window. -/
def SULimiter.get_remaining_requests (rl : SULimiter) (key : String) : Nat :=
  match alistGet rl.requests key with
  | none => rl.limit
  | some info => rl.limit - info.count

/-- A sequence of `is_allowed` calls for one key against the spec-modelled
`RateLimiter`, pairing each verdict with `get_remaining_requests` observed
right after it. -/
def suProcess (key : String) : List ℚ → SULimiter → List (Bool × Nat)
  | [], _ => []
  | t :: ts, rl =>
      let res := rl.is_allowed key t
      (res.1, res.2.get_remaining_requests key) :: suProcess key ts res.2

theorem su_is_allowed_hit (key : String) (c : Nat) (t0 t : ℚ) (h : t < t0 + 60) :
    SULimiter.is_allowed ⟨[(key, ⟨c, t0⟩)], 10, 60⟩ key t
      = if c < 10 then (true, ⟨[(key, ⟨c + 1, t0⟩)], 10, 60⟩)
        else (false, ⟨[(key, ⟨c, t0⟩)], 10, 60⟩) := by
  have hw : ¬ (t0 + 60 ≤ t) := not_le.mpr h
  simp [SULimiter.is_allowed, alistGet, alistSet, hw]

theorem suProcess_single (key : String) (t0 : ℚ) (ts : List ℚ) :
    ∀ c : Nat, c ≤ 10 → (∀ t ∈ ts, t < t0 + 60) →
    suProcess key ts ⟨[(key, ⟨c, t0⟩)], 10, 60⟩
      = (List.range ts.length).map
          (fun i => if c + i < 10 then (true, 10 - (c + i + 1)) else (false, 0)) := by
  induction ts with
  | nil => intro c _ _; rfl
  | cons t rest ih =>
      intro c hc h
      have ht : t < t0 + 60 := h t (List.mem_cons_self t rest)
      have hrest : ∀ x ∈ rest, x < t0 + 60 := fun x hx => h x (List.mem_cons_of_mem t hx)
      by_cases hlt : c < 10
      · simp only [suProcess, su_is_allowed_hit key c t0 t ht, if_pos hlt,
          ih (c + 1) hlt hrest]
        rw [List.length_cons, List.range_succ_eq_map, List.map_cons, List.map_map]
        simp only [List.cons.injEq]
        constructor
        · simp [SULimiter.get_remaining_requests, alistGet, hlt]
        · apply List.map_congr_left
          intro i _
          have harith : c + 1 + i = c + (i + 1) := by omega
          simp [Function.comp, harith]
      · have hc10 : c = 10 := by omega
        subst hc10
        simp only [suProcess, su_is_allowed_hit key 10 t0 t ht, if_neg hlt,
          ih 10 (le_refl 10) hrest]
        rw [List.length_cons, List.range_succ_eq_map, List.map_cons, List.map_map]
        simp only [List.cons.injEq]
        constructor
        · simp [SULimiter.get_remaining_requests, alistGet]
        · apply List.map_congr_left
          intro i _
          simp

/-- C4. With the limit configured to 10 and a fixed client key starting with
no recorded window: the middleware admits the 1st through 10th requests of a
60-second window and denies the 11th and subsequent ones with the 429
rate-limit response (`retry_after` 60) for the rest of the window; once the
window has elapsed the key is admitted again.  In step with this, the
spec-modelled `RateLimiter` answers `is_allowed = true` for the first ten
calls with `get_remaining_requests` decreasing 9, 8, …, 0 and `false`
afterwards. -/
theorem rate_limit_first_window (ip : String) (t0 : ℚ) (ts : List ℚ)
    (h : ∀ t ∈ ts, t < t0 + 60) :
    (processRequests 10 ip (t0 :: ts) []).1
        = (List.range (ts.length + 1)).map
            (fun i => if i < 10 then RLOutcome.allowed else RLOutcome.limited 429 60)
    ∧ suProcess ip (t0 :: ts) ⟨[], 10, 60⟩
        = (List.range (ts.length + 1)).map
            (fun i => if i < 10 then (true, 9 - i) else (false, 0))
    ∧ ∀ t' : ℚ, t0 + 60 ≤ t' →
        (rateLimitDispatch 10 ip t' (processRequests 10 ip (t0 :: ts) []).2).1
          = RLOutcome.allowed := by
  have hfirst : rateLimitDispatch 10 ip t0 [] = (RLOutcome.allowed, [(ip, ⟨1, t0⟩)]) := by
    simp [rateLimitDispatch, alistGet, alistSet]
  have hmain := processRequests_single ip t0 ts 1 (by omega) h
  have hsplit : processRequests 10 ip (t0 :: ts) []
      = (RLOutcome.allowed :: (processRequests 10 ip ts [(ip, ⟨1, t0⟩)]).1,
         (processRequests 10 ip ts [(ip, ⟨1, t0⟩)]).2) := by
    simp [processRequests, hfirst]
  refine ⟨?_, ?_, ?_⟩
  · rw [hsplit, hmain]
    rw [List.range_succ_eq_map, List.map_cons, List.map_map]
    simp only [List.cons.injEq]
    refine ⟨by simp, ?_⟩
    apply List.map_congr_left
    intro i _
    have harith : 1 + i = i + 1 := by omega
    simp [Function.comp, harith]
  · have hsufirst : SULimiter.is_allowed ⟨[], 10, 60⟩ ip t0
        = (true, ⟨[(ip, ⟨1, t0⟩)], 10, 60⟩) := by
      simp [SULimiter.is_allowed, alistGet, alistSet]
    have hsu := suProcess_single ip t0 ts 1 (by omega) h
    rw [show suProcess ip (t0 :: ts) ⟨[], 10, 60⟩
        = (true, SULimiter.get_remaining_requests ⟨[(ip, ⟨1, t0⟩)], 10, 60⟩ ip)
            :: suProcess ip ts ⟨[(ip, ⟨1, t0⟩)], 10, 60⟩ from by
      simp [suProcess, hsufirst]]
    rw [hsu, List.range_succ_eq_map, List.map_cons, List.map_map]
    simp only [List.cons.injEq]
    constructor
    · simp [SULimiter.get_remaining_requests, alistGet]
    · apply List.map_congr_left
      intro i _
      have h1 : 1 + i = i + 1 := by omega
      have h2 : 10 - (1 + i + 1) = 9 - (i + 1) := by omega
      simp [Function.comp, h1, h2]
  · intro t' ht'
    rw [hsplit]
    simp only [hmain]
    apply rateLimitDispatch_after_window
    intro p hp
    simp only [List.mem_singleton] at hp
    subst hp
    simp only
    linarith

/-- Witness for C4: twelve requests from one key inside a single window —
the first ten admitted with remaining counts 9..0, the 11th and 12th denied
with the 429 outcome; a later request after the window is admitted. -/
theorem rate_limit_first_window_witness :
    (processRequests 10 "1.2.3.4" (((0 : ℚ) :: [1, 2, 3, 4, 5, 6, 7, 8, 9, 10, 11])) []).1
        = [RLOutcome.allowed, RLOutcome.allowed, RLOutcome.allowed, RLOutcome.allowed,
           RLOutcome.allowed, RLOutcome.allowed, RLOutcome.allowed, RLOutcome.allowed,
           RLOutcome.allowed, RLOutcome.allowed, RLOutcome.limited 429 60, RLOutcome.limited 429 60]
    ∧ suProcess "1.2.3.4" (((0 : ℚ) :: [1, 2, 3, 4, 5, 6, 7, 8, 9, 10, 11])) ⟨[], 10, 60⟩
        = [(true, 9), (true, 8), (true, 7), (true, 6), (true, 5), (true, 4), (true, 3),
           (true, 2), (true, 1), (true, 0), (false, 0), (false, 0)]
    ∧ (rateLimitDispatch 10 "1.2.3.4" 61
          (processRequests 10 "1.2.3.4" (((0 : ℚ) :: [1, 2, 3, 4, 5, 6, 7, 8, 9, 10, 11])) []).2).1
        = RLOutcome.allowed := by
  have h := rate_limit_first_window "1.2.3.4" 0 [1, 2, 3, 4, 5, 6, 7, 8, 9, 10, 11]
    (by intro t ht; fin_cases ht <;> norm_num)
  refine ⟨?_, ?_, h.2.2 61 (by norm_num)⟩
  · rw [h.1]
    rfl
  · rw [h.2.1]
    rfl

theorem alistGet_alistSet {α : Type} (l : List (String × α)) (k k' : String) (v : α) :
    alistGet (alistSet l k v) k' = if k = k' then some v else alistGet l k' := by
  by_cases h : k = k'
  · subst h
    simp [alistGet_alistSet_self]
  · simp [h, alistGet_alistSet_ne l k k' v (Ne.symm h)]

/-- HTTP response headers, in insertion order. -/
abbrev Headers := List (String × String)

/-- `SecurityConfig.get_security_headers()` (`app/core/security.py`): the
fixed hardening headers; the HSTS value is empty outside production. -/
def get_security_headers (isProd : Bool) : List (String × String) :=
  [ ("X-Content-Type-Options", "nosniff"),
    ("X-Frame-Options", "DENY"),
    ("X-XSS-Protection", "1; mode=block"),
    ("Referrer-Policy", "strict-origin-when-cross-origin"),
    ("Permissions-Policy", "geolocation=(), microphone=(), camera=()"),
    ("Strict-Transport-Security",
      if isProd then "max-age=31536000; includeSubDomains" else "") ]

/-- `SecurityConfig.get_csp_policy()` (`app/core/security.py`). -/
def get_csp_policy (isProd : Bool) : String :=
  if isProd then
    "default-src \x27self\x27; script-src \x27self\x27 \x27unsafe-inline\x27 \x27unsafe-eval\x27; style-src \x27self\x27 \x27unsafe-inline\x27; img-src \x27self\x27 data: https:; font-src \x27self\x27; connect-src \x27self\x27; frame-ancestors \x27none\x27;"
  else
    "default-src \x27self\x27; script-src \x27self\x27 \x27unsafe-inline\x27 \x27unsafe-eval\x27; style-src \x27self\x27 \x27unsafe-inline\x27; img-src \x27self\x27 data: https:; font-src \x27self\x27; connect-src \x27self\x27;"

/-- `SecurityMiddleware.dispatch` (`app/core/security.py`), response side:
assigns every non-empty hardening header, then the CSP header, then the CORS
allow-origin header when no handler set one (`allow_origins` is the
environment's CORS origin list). -/
def securityDispatch (isProd : Bool) (allow_origins : List String) (resp : Headers) : Headers :=
  let hs := (get_security_headers isProd).foldl
      (fun acc kv => if kv.2 ≠ "" then alistSet acc kv.1 kv.2 else acc) resp
  let hs := alistSet hs "Content-Security-Policy" (get_csp_policy isProd)
  if (alistGet hs "Access-Control-Allow-Origin").isSome then hs
  else alistSet hs "Access-Control-Allow-Origin" (allow_origins.headD "*")

/-- The header names `SecurityMiddleware.dispatch` may write. -/
def securityTouchedNames : List String :=
  [ "X-Content-Type-Options", "X-Frame-Options", "X-XSS-Protection",
    "Referrer-Policy", "Permissions-Policy", "Strict-Transport-Security",
    "Content-Security-Policy", "Access-Control-Allow-Origin" ]

/-- C8 (counterexample). The claim says a header already set by a downstream
handler keeps its handler-assigned value.  A handler that set
`X-Frame-Options: SAMEORIGIN` has it overwritten to `DENY` by the
security-headers stage. -/
theorem security_headers_overwrite_counterexample :
    alistGet (securityDispatch false ["*"] [("X-Frame-Options", "SAMEORIGIN")])
        "X-Frame-Options" = some "DENY"
    ∧ some "DENY" ≠ some "SAMEORIGIN" := by
  constructor
  · rfl
  · decide

/-- The header state after the hardening-header and CSP assignments of
`SecurityMiddleware.dispatch` outside production (the empty HSTS value is
skipped there). -/
def secChainDev (resp : Headers) : Headers :=
  alistSet (alistSet (alistSet (alistSet (alistSet (alistSet resp
    "X-Content-Type-Options" "nosniff")
    "X-Frame-Options" "DENY")
    "X-XSS-Protection" "1; mode=block")
    "Referrer-Policy" "strict-origin-when-cross-origin")
    "Permissions-Policy" "geolocation=(), microphone=(), camera=()")
    "Content-Security-Policy" (get_csp_policy false)

/-- The header state after the hardening-header and CSP assignments of
`SecurityMiddleware.dispatch` in production (HSTS included). -/
def secChainProd (resp : Headers) : Headers :=
  alistSet (alistSet (alistSet (alistSet (alistSet (alistSet (alistSet resp
    "X-Content-Type-Options" "nosniff")
    "X-Frame-Options" "DENY")
    "X-XSS-Protection" "1; mode=block")
    "Referrer-Policy" "strict-origin-when-cross-origin")
    "Permissions-Policy" "geolocation=(), microphone=(), camera=()")
    "Strict-Transport-Security" "max-age=31536000; includeSubDomains")
    "Content-Security-Policy" (get_csp_policy true)

theorem securityDispatch_false_eq (origins : List String) (resp : Headers) :
    securityDispatch false origins resp
      = if (alistGet (secChainDev resp) "Access-Control-Allow-Origin").isSome then
          secChainDev resp
        else alistSet (secChainDev resp) "Access-Control-Allow-Origin" (origins.headD "*") :=
  rfl

theorem securityDispatch_true_eq (origins : List String) (resp : Headers) :
    securityDispatch true origins resp
      = if (alistGet (secChainProd resp) "Access-Control-Allow-Origin").isSome then
          secChainProd resp
        else alistSet (secChainProd resp) "Access-Control-Allow-Origin" (origins.headD "*") :=
  rfl

theorem alistGet_secChainDev_notmem (resp : Headers) (k : String)
    (h1 : k ≠ "X-Content-Type-Options") (h2 : k ≠ "X-Frame-Options")
    (h3 : k ≠ "X-XSS-Protection") (h4 : k ≠ "Referrer-Policy")
    (h5 : k ≠ "Permissions-Policy") (h6 : k ≠ "Content-Security-Policy") :
    alistGet (secChainDev resp) k = alistGet resp k := by
  unfold secChainDev
  rw [alistGet_alistSet_ne _ _ _ _ h6, alistGet_alistSet_ne _ _ _ _ h5,
    alistGet_alistSet_ne _ _ _ _ h4, alistGet_alistSet_ne _ _ _ _ h3,
    alistGet_alistSet_ne _ _ _ _ h2, alistGet_alistSet_ne _ _ _ _ h1]

theorem alistGet_secChainProd_notmem (resp : Headers) (k : String)
    (h1 : k ≠ "X-Content-Type-Options") (h2 : k ≠ "X-Frame-Options")
    (h3 : k ≠ "X-XSS-Protection") (h4 : k ≠ "Referrer-Policy")
    (h5 : k ≠ "Permissions-Policy") (h5' : k ≠ "Strict-Transport-Security")
    (h6 : k ≠ "Content-Security-Policy") :
    alistGet (secChainProd resp) k = alistGet resp k := by
  unfold secChainProd
  rw [alistGet_alistSet_ne _ _ _ _ h6, alistGet_alistSet_ne _ _ _ _ h5',
    alistGet_alistSet_ne _ _ _ _ h5, alistGet_alistSet_ne _ _ _ _ h4,
    alistGet_alistSet_ne _ _ _ _ h3, alistGet_alistSet_ne _ _ _ _ h2,
    alistGet_alistSet_ne _ _ _ _ h1]

/-- C8 (amended). On every response the security-headers stage sets the fixed
hardening headers, overwriting any handler-assigned value for those header
names (outside production the empty HSTS value is skipped, so a handler's
HSTS survives there); the CSP header is always set; only the CORS
allow-origin header is preserved when a handler already set it, and is filled
in from the configured origins otherwise; headers with any other name are
left untouched. -/
theorem security_headers_behavior (isProd : Bool) (allow_origins : List String) (resp : Headers) :
    alistGet (securityDispatch isProd allow_origins resp) "X-Content-Type-Options" = some "nosniff"
    ∧ alistGet (securityDispatch isProd allow_origins resp) "X-Frame-Options" = some "DENY"
    ∧ alistGet (securityDispatch isProd allow_origins resp) "X-XSS-Protection" = some "1; mode=block"
    ∧ alistGet (securityDispatch isProd allow_origins resp) "Referrer-Policy"
        = some "strict-origin-when-cross-origin"
    ∧ alistGet (securityDispatch isProd allow_origins resp) "Permissions-Policy"
        = some "geolocation=(), microphone=(), camera=()"
    ∧ (isProd = true → alistGet (securityDispatch isProd allow_origins resp) "Strict-Transport-Security"
        = some "max-age=31536000; includeSubDomains")
    ∧ (isProd = false → alistGet (securityDispatch isProd allow_origins resp) "Strict-Transport-Security"
        = alistGet resp "Strict-Transport-Security")
    ∧ alistGet (securityDispatch isProd allow_origins resp) "Content-Security-Policy"
        = some (get_csp_policy isProd)
    ∧ (∀ v, alistGet resp "Access-Control-Allow-Origin" = some v →
        alistGet (securityDispatch isProd allow_origins resp) "Access-Control-Allow-Origin" = some v)
    ∧ (alistGet resp "Access-Control-Allow-Origin" = none →
        alistGet (securityDispatch isProd allow_origins resp) "Access-Control-Allow-Origin"
          = some (allow_origins.headD "*"))
    ∧ (∀ k, k ∉ securityTouchedNames →
        alistGet (securityDispatch isProd allow_origins resp) k = alistGet resp k) := by
  cases isProd
  · have hacao : alistGet (secChainDev resp) "Access-Control-Allow-Origin"
        = alistGet resp "Access-Control-Allow-Origin" :=
      alistGet_secChainDev_notmem resp _ (by decide) (by decide) (by decide) (by decide)
        (by decide) (by decide)
    rw [securityDispatch_false_eq allow_origins resp, hacao]
    by_cases hsome : (alistGet resp "Access-Control-Allow-Origin").isSome = true
    · rw [if_pos hsome]
      refine ⟨?_, ?_, ?_, ?_, ?_, ?_, ?_, ?_, ?_, ?_, ?_⟩
      · unfold secChainDev
        rw [alistGet_alistSet_ne _ _ _ _ (by decide), alistGet_alistSet_ne _ _ _ _ (by decide),
          alistGet_alistSet_ne _ _ _ _ (by decide), alistGet_alistSet_ne _ _ _ _ (by decide),
          alistGet_alistSet_ne _ _ _ _ (by decide), alistGet_alistSet_self]
      · unfold secChainDev
        rw [alistGet_alistSet_ne _ _ _ _ (by decide), alistGet_alistSet_ne _ _ _ _ (by decide),
          alistGet_alistSet_ne _ _ _ _ (by decide), alistGet_alistSet_ne _ _ _ _ (by decide),
          alistGet_alistSet_self]
      · unfold secChainDev
        rw [alistGet_alistSet_ne _ _ _ _ (by decide), alistGet_alistSet_ne _ _ _ _ (by decide),
          alistGet_alistSet_ne _ _ _ _ (by decide), alistGet_alistSet_self]
      · unfold secChainDev
        rw [alistGet_alistSet_ne _ _ _ _ (by decide), alistGet_alistSet_ne _ _ _ _ (by decide),
          alistGet_alistSet_self]
      · unfold secChainDev
        rw [alistGet_alistSet_ne _ _ _ _ (by decide), alistGet_alistSet_self]
      · intro hcontra
        exact absurd hcontra (by decide)
      · intro _
        exact alistGet_secChainDev_notmem resp _ (by decide) (by decide) (by decide) (by decide)
          (by decide) (by decide)
      · unfold secChainDev
        rw [alistGet_alistSet_self]
      · intro v hv
        rw [hacao, hv]
      · intro hv
        rw [hv] at hsome
        exact absurd hsome (by decide)
      · intro k hk
        simp only [securityTouchedNames, List.mem_cons, List.not_mem_nil, or_false] at hk
        push_neg at hk
        obtain ⟨h1, h2, h3, h4, h5, h6, h7, h8⟩ := hk
        exact alistGet_secChainDev_notmem resp k h1 h2 h3 h4 h5 h7
    · rw [if_neg hsome]
      refine ⟨?_, ?_, ?_, ?_, ?_, ?_, ?_, ?_, ?_, ?_, ?_⟩
      · rw [alistGet_alistSet_ne _ _ _ _ (by decide)]
        unfold secChainDev
        rw [alistGet_alistSet_ne _ _ _ _ (by decide), alistGet_alistSet_ne _ _ _ _ (by decide),
          alistGet_alistSet_ne _ _ _ _ (by decide), alistGet_alistSet_ne _ _ _ _ (by decide),
          alistGet_alistSet_ne _ _ _ _ (by decide), alistGet_alistSet_self]
      · rw [alistGet_alistSet_ne _ _ _ _ (by decide)]
        unfold secChainDev
        rw [alistGet_alistSet_ne _ _ _ _ (by decide), alistGet_alistSet_ne _ _ _ _ (by decide),
          alistGet_alistSet_ne _ _ _ _ (by decide), alistGet_alistSet_ne _ _ _ _ (by decide),
          alistGet_alistSet_self]
      · rw [alistGet_alistSet_ne _ _ _ _ (by decide)]
        unfold secChainDev
        rw [alistGet_alistSet_ne _ _ _ _ (by decide), alistGet_alistSet_ne _ _ _ _ (by decide),
          alistGet_alistSet_ne _ _ _ _ (by decide), alistGet_alistSet_self]
      · rw [alistGet_alistSet_ne _ _ _ _ (by decide)]
        unfold secChainDev
        rw [alistGet_alistSet_ne _ _ _ _ (by decide), alistGet_alistSet_ne _ _ _ _ (by decide),
          alistGet_alistSet_self]
      · rw [alistGet_alistSet_ne _ _ _ _ (by decide)]
        unfold secChainDev
        rw [alistGet_alistSet_ne _ _ _ _ (by decide), alistGet_alistSet_self]
      · intro hcontra
        exact absurd hcontra (by decide)
      · intro _
        rw [alistGet_alistSet_ne _ _ _ _ (by decide)]
        exact alistGet_secChainDev_notmem resp _ (by decide) (by decide) (by decide) (by decide)
          (by decide) (by decide)
      · rw [alistGet_alistSet_ne _ _ _ _ (by decide)]
        unfold secChainDev
        rw [alistGet_alistSet_self]
      · intro v hv
        rw [hv] at hsome
        exact absurd rfl hsome
      · intro _
        rw [alistGet_alistSet_self]
      · intro k hk
        simp only [securityTouchedNames, List.mem_cons, List.not_mem_nil, or_false] at hk
        push_neg at hk
        obtain ⟨h1, h2, h3, h4, h5, h6, h7, h8⟩ := hk
        rw [alistGet_alistSet_ne _ _ _ _ h8]
        exact alistGet_secChainDev_notmem resp k h1 h2 h3 h4 h5 h7
  · have hacao : alistGet (secChainProd resp) "Access-Control-Allow-Origin"
        = alistGet resp "Access-Control-Allow-Origin" :=
      alistGet_secChainProd_notmem resp _ (by decide) (by decide) (by decide) (by decide)
        (by decide) (by decide) (by decide)
    rw [securityDispatch_true_eq allow_origins resp, hacao]
    by_cases hsome : (alistGet resp "Access-Control-Allow-Origin").isSome = true
    · rw [if_pos hsome]
      refine ⟨?_, ?_, ?_, ?_, ?_, ?_, ?_, ?_, ?_, ?_, ?_⟩
      · unfold secChainProd
        rw [alistGet_alistSet_ne _ _ _ _ (by decide), alistGet_alistSet_ne _ _ _ _ (by decide),
          alistGet_alistSet_ne _ _ _ _ (by decide), alistGet_alistSet_ne _ _ _ _ (by decide),
          alistGet_alistSet_ne _ _ _ _ (by decide), alistGet_alistSet_ne _ _ _ _ (by decide),
          alistGet_alistSet_self]
      · unfold secChainProd
        rw [alistGet_alistSet_ne _ _ _ _ (by decide), alistGet_alistSet_ne _ _ _ _ (by decide),
          alistGet_alistSet_ne _ _ _ _ (by decide), alistGet_alistSet_ne _ _ _ _ (by decide),
          alistGet_alistSet_ne _ _ _ _ (by decide), alistGet_alistSet_self]
      · unfold secChainProd
        rw [alistGet_alistSet_ne _ _ _ _ (by decide), alistGet_alistSet_ne _ _ _ _ (by decide),
          alistGet_alistSet_ne _ _ _ _ (by decide), alistGet_alistSet_ne _ _ _ _ (by decide),
          alistGet_alistSet_self]
      · unfold secChainProd
        rw [alistGet_alistSet_ne _ _ _ _ (by decide), alistGet_alistSet_ne _ _ _ _ (by decide),
          alistGet_alistSet_ne _ _ _ _ (by decide), alistGet_alistSet_self]
      · unfold secChainProd
        rw [alistGet_alistSet_ne _ _ _ _ (by decide), alistGet_alistSet_ne _ _ _ _ (by decide),
          alistGet_alistSet_self]
      · intro _
        unfold secChainProd
        rw [alistGet_alistSet_ne _ _ _ _ (by decide), alistGet_alistSet_self]
      · intro hcontra
        exact absurd hcontra (by decide)
      · unfold secChainProd
        rw [alistGet_alistSet_self]
      · intro v hv
        rw [hacao, hv]
      · intro hv
        rw [hv] at hsome
        exact absurd hsome (by decide)
      · intro k hk
        simp only [securityTouchedNames, List.mem_cons, List.not_mem_nil, or_false] at hk
        push_neg at hk
        obtain ⟨h1, h2, h3, h4, h5, h6, h7, h8⟩ := hk
        exact alistGet_secChainProd_notmem resp k h1 h2 h3 h4 h5 h6 h7
    · rw [if_neg hsome]
      refine ⟨?_, ?_, ?_, ?_, ?_, ?_, ?_, ?_, ?_, ?_, ?_⟩
      · rw [alistGet_alistSet_ne _ _ _ _ (by decide)]
        unfold secChainProd
        rw [alistGet_alistSet_ne _ _ _ _ (by decide), alistGet_alistSet_ne _ _ _ _ (by decide),
          alistGet_alistSet_ne _ _ _ _ (by decide), alistGet_alistSet_ne _ _ _ _ (by decide),
          alistGet_alistSet_ne _ _ _ _ (by decide), alistGet_alistSet_ne _ _ _ _ (by decide),
          alistGet_alistSet_self]
      · rw [alistGet_alistSet_ne _ _ _ _ (by decide)]
        unfold secChainProd
        rw [alistGet_alistSet_ne _ _ _ _ (by decide), alistGet_alistSet_ne _ _ _ _ (by decide),
          alistGet_alistSet_ne _ _ _ _ (by decide), alistGet_alistSet_ne _ _ _ _ (by decide),
          alistGet_alistSet_ne _ _ _ _ (by decide), alistGet_alistSet_self]
      · rw [alistGet_alistSet_ne _ _ _ _ (by decide)]
        unfold secChainProd
        rw [alistGet_alistSet_ne _ _ _ _ (by decide), alistGet_alistSet_ne _ _ _ _ (by decide),
          alistGet_alistSet_ne _ _ _ _ (by decide), alistGet_alistSet_ne _ _ _ _ (by decide),
          alistGet_alistSet_self]
      · rw [alistGet_alistSet_ne _ _ _ _ (by decide)]
        unfold secChainProd
        rw [alistGet_alistSet_ne _ _ _ _ (by decide), alistGet_alistSet_ne _ _ _ _ (by decide),
          alistGet_alistSet_ne _ _ _ _ (by decide), alistGet_alistSet_self]
      · rw [alistGet_alistSet_ne _ _ _ _ (by decide)]
        unfold secChainProd
        rw [alistGet_alistSet_ne _ _ _ _ (by decide), alistGet_alistSet_ne _ _ _ _ (by decide),
          alistGet_alistSet_self]
      · intro _
        rw [alistGet_alistSet_ne _ _ _ _ (by decide)]
        unfold secChainProd
        rw [alistGet_alistSet_ne _ _ _ _ (by decide), alistGet_alistSet_self]
      · intro hcontra
        exact absurd hcontra (by decide)
      · rw [alistGet_alistSet_ne _ _ _ _ (by decide)]
        unfold secChainProd
        rw [alistGet_alistSet_self]
      · intro v hv
        rw [hv] at hsome
        exact absurd rfl hsome
      · intro _
        rw [alistGet_alistSet_self]
      · intro k hk
        simp only [securityTouchedNames, List.mem_cons, List.not_mem_nil, or_false] at hk
        push_neg at hk
        obtain ⟨h1, h2, h3, h4, h5, h6, h7, h8⟩ := hk
        rw [alistGet_alistSet_ne _ _ _ _ h8]
        exact alistGet_secChainProd_notmem resp k h1 h2 h3 h4 h5 h6 h7

/-- Witness for C8 (amended): a response whose handler set the CORS
allow-origin header and a custom header keeps both through the stage. -/
theorem security_headers_behavior_witness :
    alistGet (securityDispatch true ["https://app.example.com"]
        [("Access-Control-Allow-Origin", "https://b.example.com"), ("X-Custom", "1")])
        "Access-Control-Allow-Origin" = some "https://b.example.com"
    ∧ alistGet (securityDispatch true ["https://app.example.com"]
        [("Access-Control-Allow-Origin", "https://b.example.com"), ("X-Custom", "1")])
        "X-Custom" = some "1" := by
  have h := security_headers_behavior true ["https://app.example.com"]
    [("Access-Control-Allow-Origin", "https://b.example.com"), ("X-Custom", "1")]
  exact ⟨h.2.2.2.2.2.2.2.2.1 "https://b.example.com" rfl,
    h.2.2.2.2.2.2.2.2.2.2 "X-Custom" (by decide)⟩

/-- Python whitespace characters stripped by `str.strip()`. -/
def isPySpace (c : Char) : Bool :=
  c == ' ' || c == '\t' || c == '\n' || c == '\r' || c.toNat == 11 || c.toNat == 12

/-- `str.strip()` over the character list of a string. -/
def pyStrip (s : String) : String :=
  ((s.toList.dropWhile isPySpace).reverse.dropWhile isPySpace).reverse.asString

/-- `str.lower()` over the character list of a string. -/
def pyLower (s : String) : String :=
  (s.toList.map Char.toLower).asString

/-- `str.split(sep)` over a character list: groups between separators,
keeping empty groups. -/
def splitChar (sep : Char) : List Char → List (List Char)
  | [] => [[]]
  | c :: rest =>
      match splitChar sep rest with
      | [] => if c = sep then [[], []] else [[c]]
      | grp :: grps => if c = sep then [] :: grp :: grps else (c :: grp) :: grps

/-- Modelled from the spec: `SecurityUtils.sanitize_input` of the missing
`app/core/security_utils.py` (§2 SecurityUtils; behaviour pinned by its test
suite): strips surrounding whitespace and removes null bytes. -/
def sanitize_input (text : String) : String :=
  ((pyStrip text).toList.filter (fun c => c ≠ Char.ofNat 0)).asString

/-- Modelled from the spec: the fixed case-insensitive common-password
dictionary of the missing `SecurityUtils.analyze_password_strength`
(§4.1: `password`, `123456`, `admin`, `qwerty`, …). -/
def commonPasswords : List String := ["password", "123456", "admin", "qwerty"]

/-- The password-strength levels of §4.1. -/
inductive PasswordStrength
  | very_weak
  | weak
  | medium
  | strong
  | very_strong
deriving DecidableEq, Repr

/-- Numeric order of the strength levels (`medium` and above is rank ≥ 2). -/
def strengthRank : PasswordStrength → Nat
  | PasswordStrength.very_weak => 0
  | PasswordStrength.weak => 1
  | PasswordStrength.medium => 2
  | PasswordStrength.strong => 3
  | PasswordStrength.very_strong => 4

/-- Result of the password-strength analysis (§4.1). -/
structure PasswordAnalysis where
  strength : PasswordStrength
  score : Nat
  feedback : List String
  is_acceptable : Bool
deriving DecidableEq, Repr

/-- The special-character class used by the password checks
(`app/core/security.py` uses the same literal). -/
def specialChars : List Char := "!@#$%^&*()_+-=[]\x7b\x7d|;:,.<>?".toList

/-- Three-or-more consecutive ascending characters (`abc`, `123`), §4.1. -/
def hasSeqTriple : List Char → Bool
  | a :: b :: c :: rest =>
      (b.toNat == a.toNat + 1 && c.toNat == a.toNat + 2) || hasSeqTriple (b :: c :: rest)
  | _ => false

/-- Three-or-more repeated characters (`111`), §4.1. -/
def hasRepTriple : List Char → Bool
  | a :: b :: c :: rest => (a == b && b == c) || hasRepTriple (b :: c :: rest)
  | _ => false

/-- §4.1 score→strength thresholds: 0–1 very_weak, 2 weak, 3 medium,
4 strong, ≥5 very_strong. -/
def scoreToStrength (score : Nat) : PasswordStrength :=
  if score ≤ 1 then PasswordStrength.very_weak
  else if score = 2 then PasswordStrength.weak
  else if score = 3 then PasswordStrength.medium
  else if score = 4 then PasswordStrength.strong
  else PasswordStrength.very_strong

/-- Modelled from the spec: `SecurityUtils.analyze_password_strength` of the
missing `app/core/security_utils.py`, per §4.1 and its test suite: a
dictionary password is rejected immediately with score 0, strength `weak`
and "too common" feedback; a password under 8 characters is `very_weak` with
"too short" feedback; otherwise one point for the length baseline and one per
present character class, minus one per detected anti-pattern, with
`is_acceptable` iff strength ≥ medium and length ≥ 8. -/
def analyze_password_strength (p : String) : PasswordAnalysis :=
  if pyLower p ∈ commonPasswords then
    ⟨PasswordStrength.weak, 0, ["Password is too common"], false⟩
  else if p.length < 8 then
    ⟨PasswordStrength.very_weak, 0, ["Password is too short (minimum 8 characters)"], false⟩
  else
    let cs := p.toList
    let hasUpper := cs.any (fun c => c.isUpper)
    let hasLower := cs.any (fun c => c.isLower)
    let hasDigit := cs.any (fun c => c.isDigit)
    let hasSpecial := cs.any (fun c => c ∈ specialChars)
    let score := 1 + (if hasUpper then 1 else 0) + (if hasLower then 1 else 0)
        + (if hasDigit then 1 else 0) + (if hasSpecial then 1 else 0)
        - ((if hasSeqTriple cs then 1 else 0) + (if hasRepTriple cs then 1 else 0))
    let feedback :=
      (if hasUpper then [] else ["Missing uppercase letters"])
        ++ (if hasLower then [] else ["Missing lowercase letters"])
        ++ (if hasDigit then [] else ["Missing numbers"])
        ++ (if hasSpecial then [] else ["Missing special characters"])
        ++ (if hasSeqTriple cs then ["Avoid sequential characters"] else [])
        ++ (if hasRepTriple cs then ["Avoid repeated characters"] else [])
    let strength := scoreToStrength score
    ⟨strength, score, feedback, decide (2 ≤ strengthRank strength) && decide (8 ≤ p.length)⟩

/-- C6. Every password matching the common-password dictionary
case-insensitively is rejected immediately by the strength analysis: score 0,
strength `weak`, not acceptable, with the feedback naming it too common; in
particular this holds for `"password"`. -/
theorem common_password_rejected :
    (∀ p : String, pyLower p ∈ commonPasswords →
        analyze_password_strength p
          = ⟨PasswordStrength.weak, 0, ["Password is too common"], false⟩)
    ∧ analyze_password_strength "password"
        = ⟨PasswordStrength.weak, 0, ["Password is too common"], false⟩ := by
  constructor
  · intro p hp
    simp [analyze_password_strength, hp]
  · rfl

/-- Witness for C6 at the mixed-case input `"Admin"`, whose lowercase form is
in the dictionary. -/
theorem common_password_rejected_witness :
    analyze_password_strength "Admin"
      = ⟨PasswordStrength.weak, 0, ["Password is too common"], false⟩ :=
  common_password_rejected.1 "Admin" (by decide)

/-- A Python exception observable from `verify_password`. -/
inductive PyError
  | valueError (msg : String)
deriving DecidableEq, Repr

/-- Whether a string has the shape of a bcrypt hash
(`$2$`/`$2a$`/`$2b$`/`$2x$`/`$2y$`, a two-digit cost, and 53 radix-64
characters of salt+digest): the shape `bcrypt.checkpw` requires before it can
compare, raising `ValueError("Invalid salt")` otherwise. -/
def isBcryptShaped (h : String) : Bool :=
  match (splitChar (Char.ofNat 36) h.toList).map List.asString with
  | ["", ver, cost, rest] =>
      (ver == "2" || ver == "2a" || ver == "2b" || ver == "2x" || ver == "2y")
        && cost.length == 2 && cost.toList.all (fun c => c.isDigit) && rest.length == 53
  | _ => false

/-- `bcrypt.checkpw(password, hashed)`: re-derives the hash of `password`
under the salt of `hashed` (the derivation itself is abstracted as
`bcryptHashpw`) and compares; a malformed `hashed` raises
`ValueError("Invalid salt")`. -/
def checkpw (bcryptHashpw : String → String → String) (password hashed_password : String) :
    Except PyError Bool :=
  if isBcryptShaped hashed_password then
    Except.ok (bcryptHashpw password hashed_password == hashed_password)
  else Except.error (PyError.valueError "Invalid salt")

/-- `AuthenticationManager.verify_password(password, hashed_password)`
(`app/core/security.py`): delegates straight to `bcrypt.checkpw` with no
exception handling. -/
def verify_password (bcryptHashpw : String → String → String)
    (password hashed_password : String) : Except PyError Bool :=
  checkpw bcryptHashpw password hashed_password

/-- C7 (failing input). The claim says password verification returns false
and never raises on a malformed hash.  `AuthenticationManager.verify_password`
hands the malformed hash `"invalid_hash"` (not bcrypt-shaped) straight to
`bcrypt.checkpw`, which raises `ValueError("Invalid salt")` instead of
returning false — for any bcrypt derivation function. -/
theorem verify_password_raises_on_malformed
    (bcryptHashpw : String → String → String) :
    isBcryptShaped "invalid_hash" = false
    ∧ verify_password bcryptHashpw "password" "invalid_hash"
        = Except.error (PyError.valueError "Invalid salt") := by
  exact ⟨rfl, rfl⟩

/-- Modelled from the spec: the common-username list of the missing
`SecurityUtils.validate_username` (its test suite pins `admin`). -/
def commonUsernames : List String := ["admin", "root", "user", "test", "guest"]

/-- Modelled from the spec: `SecurityUtils.validate_username` of the missing
`app/core/security_utils.py` (§2 SecurityUtils; behaviour pinned by its test
suite): 3–50 characters, letters/digits/underscores only, not a common
username, and not starting or ending with an underscore; returns the verdict
with the list of violations in the order checked. -/
def validate_username (u : String) : Bool × List String :=
  let cs := u.toList
  let errors :=
    (if u.length < 3 then ["Username must be at least 3 characters long"] else [])
      ++ (if 50 < u.length then ["Username must be less than 50 characters"] else [])
      ++ (if cs.all (fun c => c.isAlphanum || c = '_') then []
          else ["Username can only contain letters, numbers, and underscores"])
      ++ (if pyLower u ∈ commonUsernames then ["Username is too common"] else [])
      ++ (if cs.headD ' ' = '_' || cs.getLastD ' ' = '_' then
            ["Username cannot start or end with underscore"] else [])
  (errors.isEmpty, errors)

/-- Two consecutive dots somewhere in the character list. -/
def hasDoubleDot : List Char → Bool
  | a :: b :: rest => (a == '.' && b == '.') || hasDoubleDot (b :: rest)
  | _ => false

/-- Modelled from the spec: `SecurityUtils.validate_email` of the missing
`app/core/security_utils.py` (§2 SecurityUtils; behaviour pinned by its test
suite): exactly one `@` separating a non-empty local part from a non-empty
domain that contains a dot, with no leading/trailing dots on either side and
no doubled dots. -/
def validate_email (e : String) : Bool :=
  match (splitChar '@' e.toList).map List.asString with
  | [localPart, domain] =>
      decide (0 < localPart.length) && decide (0 < domain.length)
        && domain.toList.contains '.'
        && !(localPart.toList.headD ' ' == '.') && !(localPart.toList.getLastD ' ' == '.')
        && !(domain.toList.headD ' ' == '.') && !(domain.toList.getLastD ' ' == '.')
        && !(hasDoubleDot e.toList)
  | _ => false

/-- The result dict of `validate_registration_data`. -/
structure RegistrationValidation where
  is_valid : Bool
  errors : List String
  password_strength : Nat
deriving DecidableEq, Repr

/-- Modelled from the spec: `validate_registration_data` of the missing
`app/core/security_utils.py` (behaviour pinned by its test suite): collects
username violations, an email-format error, and a password-acceptability
error; valid iff no violation; reports the password score. -/
def validate_registration_data (username email password : String) : RegistrationValidation :=
  let ures := validate_username username
  let pa := analyze_password_strength password
  let errors :=
    ures.2
      ++ (if validate_email email then [] else ["Invalid email format"])
      ++ (if pa.is_acceptable then [] else ["Password does not meet security requirements"])
  ⟨errors.isEmpty, errors, pa.score⟩

/-- The success body of `/auth/register` (`TokenResponse` in
`app/api/auth.py`). -/
structure TokenResponse where
  access_token : Jwt
  refresh_token : Jwt
  token_type : String
  expires_in : Int
  user : UserRec
deriving DecidableEq

/-- The `register` handler (`app/api/auth.py`): sanitizes the inputs,
validates the registration data (400 on failure), rejects an already-used
username or email (400), stores the user with the bcrypt hash (`hashFn`
abstracts `hash_password`, `newId` the id the database assigns), issues the
access/refresh pair for the new user and answers 201 with `expires_in` set to
the configured access-token lifetime converted to seconds. -/
def register (secret alg : String) (accessMinutes refreshDays : Int)
    (userByUsername userByEmail : String → Option UserRec)
    (hashFn : String → String) (newId : Int)
    (username email password : String) (role_id : Option Int) (now : Int) :
    Except HttpError (Nat × TokenResponse) :=
  let u := sanitize_input username
  let e := sanitize_input email
  let vr := validate_registration_data u e password
  if vr.is_valid then
    if (userByUsername u).isSome then
      Except.error ⟨400, "Username already registered"⟩
    else if (userByEmail e).isSome then
      Except.error ⟨400, "Email already registered"⟩
    else
      let user : UserRec := ⟨newId, u, e, hashFn password, true, role_id⟩
      let roleClaim := match role_id with
        | none => ClaimVal.null
        | some r => ClaimVal.num r
      let access := create_access_token secret alg
        [("sub", ClaimVal.str (toString newId)), ("username", ClaimVal.str u),
         ("role_id", roleClaim)]
        (some (accessMinutes * 60)) now accessMinutes
      let refresh := create_refresh_token secret alg
        [("sub", ClaimVal.str (toString newId)), ("username", ClaimVal.str u)] now refreshDays
      Except.ok (201, ⟨access, refresh, "bearer", accessMinutes * 60, user⟩)
  else
    Except.error ⟨400, "Registration validation failed: " ++ String.intercalate "; " vr.errors⟩

theorem verify_create_refresh_before (secret alg : String) (data : Claims)
    (days now t : Int) (h : t < now + days * 86400) :
    verify_token secret alg (create_refresh_token secret alg data now days) t
      = Except.ok (setClaim (setClaim data "exp" (ClaimVal.num (now + days * 86400)))
          "type" (ClaimVal.str "refresh")) := by
  have hexp : getClaim (setClaim (setClaim data "exp" (ClaimVal.num (now + days * 86400)))
      "type" (ClaimVal.str "refresh")) "exp" = some (ClaimVal.num (now + days * 86400)) := by
    rw [getClaim_setClaim_ne _ _ _ _ (by decide), getClaim_setClaim_self]
  unfold verify_token jwtDecode create_refresh_token jwtEncode
  rw [hexp]
  simp [not_le.mpr h]

/-- C5. For every registration request whose (sanitized) username and email
validate, whose password is acceptable, and whose username and email are not
already taken, `/auth/register` answers 201 with a body carrying an access
token (`type = "access"`, verifiable at issue time), a refresh token
(`type = "refresh"`, verifiable at issue time) and `expires_in` equal to the
configured access-token lifetime in minutes converted to seconds. -/
theorem register_success (secret alg : String) (accessMinutes refreshDays : Int)
    (userByUsername userByEmail : String → Option UserRec) (hashFn : String → String)
    (newId : Int) (username email password : String) (role_id : Option Int) (now : Int)
    (hval : (validate_registration_data (sanitize_input username) (sanitize_input email)
        password).is_valid = true)
    (hu : userByUsername (sanitize_input username) = none)
    (he : userByEmail (sanitize_input email) = none)
    (hmin : 0 < accessMinutes) (hdays : 0 < refreshDays) :
    ∃ resp : TokenResponse,
      register secret alg accessMinutes refreshDays userByUsername userByEmail hashFn newId
          username email password role_id now = Except.ok (201, resp)
      ∧ resp.expires_in = accessMinutes * 60
      ∧ getClaim resp.access_token.payload "type" = some (ClaimVal.str "access")
      ∧ getClaim resp.refresh_token.payload "type" = some (ClaimVal.str "refresh")
      ∧ verify_token secret alg resp.access_token now = Except.ok resp.access_token.payload
      ∧ verify_token secret alg resp.refresh_token now = Except.ok resp.refresh_token.payload := by
  have hreg : register secret alg accessMinutes refreshDays userByUsername userByEmail hashFn
      newId username email password role_id now = Except.ok (201,
      ⟨create_access_token secret alg
          [("sub", ClaimVal.str (toString newId)),
           ("username", ClaimVal.str (sanitize_input username)),
           ("role_id", match role_id with
             | none => ClaimVal.null
             | some r => ClaimVal.num r)]
          (some (accessMinutes * 60)) now accessMinutes,
        create_refresh_token secret alg
          [("sub", ClaimVal.str (toString newId)),
           ("username", ClaimVal.str (sanitize_input username))] now refreshDays,
        "bearer", accessMinutes * 60,
        ⟨newId, sanitize_input username, sanitize_input email, hashFn password, true, role_id⟩⟩) := by
    simp only [register, hval, hu, he, Option.isSome_none, Bool.false_eq_true, if_true,
      if_false, ite_true, ite_false]
  refine ⟨_, hreg, rfl, ?_, ?_, ?_, ?_⟩
  · exact getClaim_setClaim_self _ _ _
  · exact getClaim_setClaim_self _ _ _
  · exact verify_create_access_before secret alg _ (accessMinutes * 60) now now accessMinutes
      (by omega)
  · exact verify_create_refresh_before secret alg _ refreshDays now now (by omega)

/-- Witness for C5: registering `"newuser123"` / `"new@example.com"` /
`"SecurePassword123!"` against an empty store with a 30-minute access-token
lifetime answers 201 with `expires_in = 1800`. -/
theorem register_success_witness :
    ∃ resp : TokenResponse,
      register "s" "HS256" 30 7 (fun _ => none) (fun _ => none) (fun _ => "hashed") 1
          "newuser123" "new@example.com" "SecurePassword123!" none 0 = Except.ok (201, resp)
      ∧ resp.expires_in = 1800
      ∧ getClaim resp.access_token.payload "type" = some (ClaimVal.str "access")
      ∧ getClaim resp.refresh_token.payload "type" = some (ClaimVal.str "refresh")
      ∧ verify_token "s" "HS256" resp.access_token 0 = Except.ok resp.access_token.payload
      ∧ verify_token "s" "HS256" resp.refresh_token 0 = Except.ok resp.refresh_token.payload := by
  have h := register_success "s" "HS256" 30 7 (fun _ => none) (fun _ => none)
    (fun _ => "hashed") 1 "newuser123" "new@example.com" "SecurePassword123!" none 0
    (by decide) rfl rfl (by decide) (by decide)
  exact h
